import Mathlib

/-!
Shallow embedding of `vllm/model_executor/layers/quantization/awq.py`
(AWQ 4-bit quantized linear layer: layout calculator, quantization
descriptor, weight buffer allocator and matmul dispatcher), together with
theorems settling the specification claims about it.

Python exceptions are modelled with `Except PyError`; machine integers in
this file are all non-negative sizes and counts, modelled as `Nat`
(Python `//` and `%` agree with `Nat` division and modulo on non-negative
operands with a positive divisor; a zero divisor raises
`ZeroDivisionError`, modelled explicitly by `pyMod`).
-/

/-- Kinds of Python exception the embedded fragment can raise. -/
inductive PyError where
  | valueError (msg : String)
  | zeroDivisionError
  | notImplementedError
  | typeError
  deriving DecidableEq, Repr

/-- Tensor element dtypes used by the fragment. `params_dtype` is passed in
by the caller; `int32` / `int16` are the packed storage units. -/
inductive DType where
  | int16
  | int32
  | half
  | bfloat16
  | float32
  deriving DecidableEq, Repr

/-- Python `a % b`: raises `ZeroDivisionError` when `b = 0`, otherwise (on
non-negative operands) agrees with `Nat.mod`. -/
def pyMod (a b : Nat) : Except PyError Nat :=
  if b = 0 then Except.error PyError.zeroDivisionError else Except.ok (a % b)

/-- `make_divisible(c, divisor) = (c + divisor - 1) // divisor` (integer
ceiling division). -/
def make_divisible (c divisor : Nat) : Nat :=
  (c + divisor - 1) / divisor

/-- The `size_multiplier` selection inside `calculate_zeros_width`:
1 for `group_size >= 128`, 2 for 64, 4 for 32, otherwise
`NotImplementedError`. -/
def czw_size_multiplier (group_size : Nat) : Except PyError Nat :=
  if 128 ≤ group_size then Except.ok 1
  else if group_size = 64 then Except.ok 2
  else if group_size = 32 then Except.ok 4
  else Except.error PyError.notImplementedError

/-- `calculate_zeros_width(in_features, group_size, pack_num)`: the packed
width of the group axis (the spec's `groupedWidth`). Note the inner
division `in_features // group_size` is Python floor division (the
reachable branches all have `group_size > 0`, where it equals `Nat.div`). -/
def calculate_zeros_width (in_features group_size pack_num : Nat) :
    Except PyError Nat :=
  match czw_size_multiplier group_size with
  | Except.error e => Except.error e
  | Except.ok size_multiplier =>
    let base_width := make_divisible (in_features / group_size) pack_num
    Except.ok (make_divisible base_width size_multiplier * size_multiplier)

/-- The error message of `AWQConfig.__init__` for unsupported bit widths. -/
def weight_bits_err_msg : String :=
  "Currently, only 4-bit weight quantization is supported for AWQ."

/-- `AWQConfig`: the quantization descriptor, with the derived constants
set by `__init__` (`pack_factor_int32 = 32 // weight_bits`,
`pack_factor_int16 = 16 // weight_bits`, `interleave = 4`). -/
structure AWQConfig where
  weight_bits : Nat
  group_size : Nat
  zero_point : Bool
  version : String
  pack_factor_int32 : Nat
  pack_factor_int16 : Nat
  interleave : Nat
  deriving DecidableEq, Repr

/-- `AWQConfig.__init__`: rejects any `weight_bits != 4` with a
`ValueError`; otherwise stores the fields verbatim and computes the
derived pack factors and the fixed interleave constant. -/
def AWQConfig.init (weight_bits group_size : Nat) (zero_point : Bool)
    (version : String) : Except PyError AWQConfig :=
  if weight_bits ≠ 4 then
    Except.error (PyError.valueError weight_bits_err_msg)
  else
    Except.ok
      { weight_bits := weight_bits
        group_size := group_size
        zero_point := zero_point
        version := version
        pack_factor_int32 := 32 / weight_bits
        pack_factor_int16 := 16 / weight_bits
        interleave := 4 }

/-- A value stored in the quantization config key-value object. -/
inductive ConfigValue where
  | int (n : Nat)
  | bool (b : Bool)
  | str (s : String)
  deriving DecidableEq, Repr

/-- Error message when none of the candidate keys is present. -/
def cannot_find_keys_msg : String :=
  "Cannot find any of the candidate keys in the quantization config."

/-- Modelled from the spec: `getFromKeys(config, candidateKeys)` of the
quantization-config base class (not part of this fragment's source)
returns the value of the first present key among `candidateKeys`, and
treats absence of all candidates as a configuration error. -/
def get_from_keys (config : List (String × ConfigValue)) :
    List String → Except PyError ConfigValue
  | [] => Except.error (PyError.valueError cannot_find_keys_msg)
  | k :: keys =>
    match config.lookup k with
    | some v => Except.ok v
    | none => get_from_keys config keys

/-- `AWQConfig.from_config`: reads `w_bit`/`bits`, then
`q_group_size`/`group_size`, then `zero_point`, then `version` from the
config key-value object and constructs the validated descriptor. -/
def AWQConfig.from_config (config : List (String × ConfigValue)) :
    Except PyError AWQConfig :=
  match get_from_keys config ["w_bit", "bits"] with
  | Except.error e => Except.error e
  | Except.ok weight_bits =>
    match get_from_keys config ["q_group_size", "group_size"] with
    | Except.error e => Except.error e
    | Except.ok group_size =>
      match get_from_keys config ["zero_point"] with
      | Except.error e => Except.error e
      | Except.ok zero_point =>
        match get_from_keys config ["version"] with
        | Except.error e => Except.error e
        | Except.ok version =>
          match weight_bits, group_size, zero_point, version with
          | ConfigValue.int w, ConfigValue.int g, ConfigValue.bool z,
            ConfigValue.str v => AWQConfig.init w g z v
          | _, _, _, _ => Except.error PyError.typeError

/-- The dimension-role metadata attached to a buffer by
`set_weight_attrs`. Absent keys are `none`. -/
structure WeightAttrs where
  input_dim : Nat
  output_dim : Nat
  packed_dim : Option Nat
  pack_factor : Option Nat
  awq_interleave : Option Nat
  deriving DecidableEq, Repr

/-- One allocated buffer: its physical shape, dtype and attached
metadata (a `torch.empty` allocation is uninitialised, so only these are
observable at allocation time). -/
structure TensorSpec where
  shape : List Nat
  dtype : DType
  attrs : WeightAttrs
  deriving DecidableEq, Repr

/-- The `PackedWeightSet` returned by `create_weights`. -/
structure AWQWeights where
  qweight : TensorSpec
  qzeros : TensorSpec
  scales : TensorSpec
  deriving DecidableEq, Repr

/-- The `ValueError` message for a misaligned input size. -/
def input_align_msg : String :=
  "The input size is not aligned with the quantized weight shape. This can be caused by too large tensor parallel size."

/-- The `ValueError` message for a misaligned output size. -/
def output_align_msg : String :=
  "The output size is not aligned with the quantized weight shape. This can be caused by too large tensor parallel size."

/-- `AWQLinearMethod.create_weights`: checks the two divisibility
preconditions (each `%` can itself raise `ZeroDivisionError`), then
allocates the three buffers of the layout selected by
`version == "gemv_fast"`. Any raise propagates; no weight set is produced
on error. -/
def create_weights (cfg : AWQConfig)
    (input_size_per_partition output_size_per_partition
     input_size output_size : Nat) (params_dtype : DType) :
    Except PyError AWQWeights :=
  match pyMod input_size_per_partition cfg.group_size with
  | Except.error e => Except.error e
  | Except.ok r1 =>
    if r1 ≠ 0 then Except.error (PyError.valueError input_align_msg)
    else
      match pyMod output_size_per_partition cfg.pack_factor_int32 with
      | Except.error e => Except.error e
      | Except.ok r2 =>
        if r2 ≠ 0 then Except.error (PyError.valueError output_align_msg)
        else
          if cfg.version = "gemv_fast" then
            match calculate_zeros_width input_size_per_partition
                cfg.group_size 8 with
            | Except.error e => Except.error e
            | Except.ok zeros_width =>
              Except.ok
                { qweight :=
                    { shape := [output_size_per_partition / cfg.interleave,
                        input_size_per_partition / cfg.pack_factor_int16 *
                          cfg.interleave]
                      dtype := DType.int16
                      attrs :=
                        { input_dim := 1
                          output_dim := 0
                          packed_dim := some 1
                          pack_factor := some cfg.pack_factor_int16
                          awq_interleave := some cfg.interleave } }
                  qzeros :=
                    { shape := [zeros_width * cfg.pack_factor_int32,
                        output_size_per_partition]
                      dtype := params_dtype
                      attrs :=
                        { input_dim := 0
                          output_dim := 1
                          packed_dim := some 0
                          pack_factor := none
                          awq_interleave := none } }
                  scales :=
                    { shape := [zeros_width * cfg.pack_factor_int32,
                        output_size_per_partition]
                      dtype := params_dtype
                      attrs :=
                        { input_dim := 0
                          output_dim := 1
                          packed_dim := some 0
                          pack_factor := none
                          awq_interleave := none } } }
          else
            Except.ok
              { qweight :=
                  { shape := [input_size_per_partition,
                      output_size_per_partition / cfg.pack_factor_int32]
                    dtype := DType.int32
                    attrs :=
                      { input_dim := 0
                        output_dim := 1
                        packed_dim := some 1
                        pack_factor := some cfg.pack_factor_int32
                        awq_interleave := none } }
                qzeros :=
                  { shape := [input_size_per_partition / cfg.group_size,
                      output_size_per_partition / cfg.pack_factor_int32]
                    dtype := DType.int32
                    attrs :=
                      { input_dim := 0
                        output_dim := 1
                        packed_dim := some 1
                        pack_factor := some cfg.pack_factor_int32
                        awq_interleave := none } }
                scales :=
                  { shape := [input_size_per_partition / cfg.group_size,
                      output_size_per_partition]
                    dtype := params_dtype
                    attrs :=
                      { input_dim := 0
                        output_dim := 1
                        packed_dim := none
                        pack_factor := none
                        awq_interleave := none } } }

/-- `x.shape[:-1].numel()` in `apply_weights`: the number of tokens in the
activation batch, the product of all leading (non-last) dimensions. -/
def total_tokens (xShape : List Nat) : Nat :=
  (xShape.dropLast).prod

/-- The four compute strategies `apply_weights` can dispatch to. -/
inductive DispatchPath where
  | dequantizeMatmul
  | fusedGemm
  | gemvFast
  | gemmFast
  deriving DecidableEq, Repr

/-- The dispatch decision of `AWQLinearMethod.apply_weights`: on
`version == "gemv_fast"`, `awq_gemv_fast` when
`not (x.shape[:-1].numel() >= 8)` and `awq_gemm_fast` otherwise; on any
other version, dequantize-then-`matmul` when
`x.shape[:-1].numel() >= 256` and `awq_gemm` otherwise. -/
def apply_weights_path (cfg : AWQConfig) (xShape : List Nat) :
    DispatchPath :=
  if cfg.version = "gemv_fast" then
    if ¬ (8 ≤ total_tokens xShape) then DispatchPath.gemvFast
    else DispatchPath.gemmFast
  else
    if 256 ≤ total_tokens xShape then DispatchPath.dequantizeMatmul
    else DispatchPath.fusedGemm

/-! ## Theorems settling the claims -/

/-- Helper: rounding `b` up to a multiple of `m` with integer ceiling
division never decreases it. -/
theorem le_make_divisible_mul (b m : Nat) (hm : 0 < m) :
    b ≤ make_divisible b m * m := by
  cases b with
  | zero => exact Nat.zero_le _
  | succ n =>
    have hrw : make_divisible (n + 1) m = n / m + 1 := by
      unfold make_divisible
      have h : n + 1 + m - 1 = n + m := by omega
      rw [h, Nat.add_div_right n hm]
    rw [hrw]
    exact (Nat.div_lt_iff_lt_mul hm).mp (Nat.lt_succ_self (n / m))

/-- C6: constructing the descriptor with `weightBits ≠ 4` (e.g. 8) fails
with the fatal configuration `ValueError`, while `weightBits = 4` succeeds
and yields the derived constants `packFactor32 = 8`, `packFactor16 = 4`
and `interleave = 4`. -/
theorem awq_c6_descriptor_construction (wb g : Nat) (z : Bool) (v : String)
    (hwb : wb ≠ 4) :
    AWQConfig.init wb g z v
        = Except.error (PyError.valueError weight_bits_err_msg)
    ∧ AWQConfig.init 4 g z v = Except.ok ⟨4, g, z, v, 8, 4, 4⟩ := by
  constructor
  · simp [AWQConfig.init, hwb]
  · simp [AWQConfig.init]

/-- Witness for C6 at `weightBits = 8` (failure) and `weightBits = 4`
(success with the derived constants). -/
theorem awq_c6_witness :
    AWQConfig.init 8 128 true "gemm"
        = Except.error (PyError.valueError weight_bits_err_msg)
    ∧ AWQConfig.init 4 128 true "gemm"
        = Except.ok ⟨4, 128, true, "gemm", 8, 4, 4⟩ :=
  awq_c6_descriptor_construction 8 128 true "gemm" (by decide)

/-- C10: descriptor construction with `weightBits = 4` and `groupSize = 0`
succeeds without error, and any subsequent `create_weights` call on that
descriptor fails with the unguarded `ZeroDivisionError` raised by the
modulo precondition check, not with a sharding or configuration error. -/
theorem awq_c10_group_size_zero (z : Bool) (v : String)
    (input_size_per_partition output_size_per_partition
     input_size output_size : Nat) (dt : DType) :
    AWQConfig.init 4 0 z v = Except.ok ⟨4, 0, z, v, 8, 4, 4⟩
    ∧ create_weights ⟨4, 0, z, v, 8, 4, 4⟩ input_size_per_partition
        output_size_per_partition input_size output_size dt
      = Except.error PyError.zeroDivisionError := by
  constructor
  · simp [AWQConfig.init]
  · simp [create_weights, pyMod]

/-- Counterexample to C8 as stated: the claim places the configuration
error for an unsupported `groupSize` (e.g. 17) at descriptor construction
time, but constructing the descriptor with `groupSize = 17` succeeds. -/
theorem awq_c8_counterexample :
    AWQConfig.init 4 17 true "gemm"
      = Except.ok ⟨4, 17, true, "gemm", 8, 4, 4⟩ := by
  simp [AWQConfig.init]

/-- C8 (amended): for every `groupSize` outside {32, 64, 128+} (e.g. 17),
`groupedWidth` (`calculate_zeros_width`) fails with the fatal
`NotImplementedError` configuration error, while descriptor construction
itself accepts the group size unvalidated. -/
theorem awq_c8_grouped_width_config_error (g : Nat)
    (h1 : ¬ 128 ≤ g) (h2 : g ≠ 64) (h3 : g ≠ 32)
    (z : Bool) (v : String) (in_features pack_num : Nat) :
    calculate_zeros_width in_features g pack_num
        = Except.error PyError.notImplementedError
    ∧ AWQConfig.init 4 g z v = Except.ok ⟨4, g, z, v, 8, 4, 4⟩ := by
  constructor
  · simp [calculate_zeros_width, czw_size_multiplier, h1, h2, h3]
  · simp [AWQConfig.init]

/-- Witness for the amended C8 at `groupSize = 17`. -/
theorem awq_c8_witness :
    calculate_zeros_width 5 17 8 = Except.error PyError.notImplementedError
    ∧ AWQConfig.init 4 17 false "gemv_fast"
        = Except.ok ⟨4, 17, false, "gemv_fast", 8, 4, 4⟩ :=
  awq_c8_grouped_width_config_error 17 (by decide) (by decide) (by decide)
    false "gemv_fast" 5 8

/-- Counterexample to C4 as stated: at `inFeatures = 1`, `groupSize = 32`
the code returns 0 (its inner division is floor division), which is below
the claimed lower bound `ceilDiv(ceilDiv(1, 32), 8) = 1`. -/
theorem awq_c4_counterexample :
    calculate_zeros_width 1 32 8 = Except.ok 0
    ∧ ¬ (make_divisible (make_divisible 1 32) 8 ≤ 0) :=
  ⟨rfl, by decide⟩

/-- C4 (amended): for every `inFeatures` and `groupSize ∈ {32, 64, 128,
256}`, `groupedWidth` with `packNum = 8` succeeds and returns a multiple
of the corresponding `sizeMultiplier` that is
`≥ ceilDiv(floorDiv(inFeatures, groupSize), 8)` — the inner division in
the code is floor division, so the claimed all-ceiling bound holds exactly
when `groupSize` divides `inFeatures`. -/
theorem awq_c4_grouped_width_bounds (in_features g : Nat)
    (hg : g = 32 ∨ g = 64 ∨ g = 128 ∨ g = 256) :
    ∃ m w, czw_size_multiplier g = Except.ok m
      ∧ calculate_zeros_width in_features g 8 = Except.ok w
      ∧ m ∣ w
      ∧ make_divisible (in_features / g) 8 ≤ w := by
  rcases hg with rfl | rfl | rfl | rfl
  · exact ⟨_, _, rfl, rfl, dvd_mul_left _ _,
      le_make_divisible_mul _ _ (by decide)⟩
  · exact ⟨_, _, rfl, rfl, dvd_mul_left _ _,
      le_make_divisible_mul _ _ (by decide)⟩
  · exact ⟨_, _, rfl, rfl, dvd_mul_left _ _,
      le_make_divisible_mul _ _ (by decide)⟩
  · exact ⟨_, _, rfl, rfl, dvd_mul_left _ _,
      le_make_divisible_mul _ _ (by decide)⟩

/-- Witness for the amended C4 at `inFeatures = 1`, `groupSize = 32`. -/
theorem awq_c4_witness :
    ∃ m w, czw_size_multiplier 32 = Except.ok m
      ∧ calculate_zeros_width 1 32 8 = Except.ok w
      ∧ m ∣ w
      ∧ make_divisible (1 / 32) 8 ≤ w :=
  awq_c4_grouped_width_bounds 1 32 (Or.inl rfl)

/-- C1: for every STANDARD-variant descriptor (`version ≠ "gemv_fast"`)
and every shard shape meeting the allocation preconditions,
`create_weights` returns `qweight` of physical shape
`(inputSizePerPartition, outputSizePerPartition / packFactor32)` in the
32-bit storage unit, `qzeros` of shape
`(inputSizePerPartition / groupSize, outputSizePerPartition / packFactor32)`
and `scales` of shape
`(inputSizePerPartition / groupSize, outputSizePerPartition)`
(`packFactor32 = 8` for the 4-bit descriptor). -/
theorem awq_c1_standard_layout_shapes (g : Nat) (z : Bool) (v : String)
    (cfg : AWQConfig) (hcfg : AWQConfig.init 4 g z v = Except.ok cfg)
    (hv : v ≠ "gemv_fast") (hg : 0 < g)
    (input_size_per_partition output_size_per_partition
     input_size output_size : Nat) (dt : DType)
    (hin : input_size_per_partition % g = 0)
    (hout : output_size_per_partition % 8 = 0) :
    ∃ ws, create_weights cfg input_size_per_partition
        output_size_per_partition input_size output_size dt = Except.ok ws
      ∧ ws.qweight.shape
          = [input_size_per_partition, output_size_per_partition / 8]
      ∧ ws.qweight.dtype = DType.int32
      ∧ ws.qzeros.shape
          = [input_size_per_partition / g, output_size_per_partition / 8]
      ∧ ws.scales.shape
          = [input_size_per_partition / g, output_size_per_partition] := by
  have hc : (⟨4, g, z, v, 8, 4, 4⟩ : AWQConfig) = cfg := by
    simpa [AWQConfig.init] using hcfg
  subst hc
  refine ⟨⟨⟨[input_size_per_partition, output_size_per_partition / 8],
      DType.int32, ⟨0, 1, some 1, some 8, none⟩⟩,
      ⟨[input_size_per_partition / g, output_size_per_partition / 8],
      DType.int32, ⟨0, 1, some 1, some 8, none⟩⟩,
      ⟨[input_size_per_partition / g, output_size_per_partition],
      dt, ⟨0, 1, none, none, none⟩⟩⟩, ?_, rfl, rfl, rfl, rfl⟩
  simp [create_weights, pyMod, hg.ne', hin, hout, hv]

/-- Witness for C1 at `groupSize = 128`,
`inputSizePerPartition = 128`, `outputSizePerPartition = 8`. -/
theorem awq_c1_witness :
    ∃ ws, create_weights ⟨4, 128, true, "gemm", 8, 4, 4⟩ 128 8 128 8
        DType.half = Except.ok ws
      ∧ ws.qweight.shape = [128, 8 / 8]
      ∧ ws.qweight.dtype = DType.int32
      ∧ ws.qzeros.shape = [128 / 128, 8 / 8]
      ∧ ws.scales.shape = [128 / 128, 8] :=
  awq_c1_standard_layout_shapes 128 true "gemm" ⟨4, 128, true, "gemm", 8, 4, 4⟩
    rfl (by decide) (by decide) 128 8 128 8 DType.half (by decide) (by decide)

/-- C2: for every FAST_GEMV-variant descriptor (`version = "gemv_fast"`)
and every shard shape meeting the allocation preconditions (with
`groupedWidth` defined, i.e. a supported group size), `create_weights`
returns `qweight` of physical shape `(outputSizePerPartition / interleave,
inputSizePerPartition / packFactor16 * interleave)` in the 16-bit storage
unit, and `qzeros` and `scales` both of physical shape
`(groupedWidth(inputSizePerPartition, groupSize) * packFactor32,
outputSizePerPartition)` in the unpacked `params_dtype`
(`interleave = 4`, `packFactor16 = 4`, `packFactor32 = 8`). -/
theorem awq_c2_gemv_fast_layout_shapes (g : Nat) (z : Bool)
    (cfg : AWQConfig)
    (hcfg : AWQConfig.init 4 g z "gemv_fast" = Except.ok cfg) (hg : 0 < g)
    (input_size_per_partition output_size_per_partition
     input_size output_size : Nat) (dt : DType) (zeros_width : Nat)
    (hin : input_size_per_partition % g = 0)
    (hout : output_size_per_partition % 8 = 0)
    (hzw : calculate_zeros_width input_size_per_partition g 8
        = Except.ok zeros_width) :
    ∃ ws, create_weights cfg input_size_per_partition
        output_size_per_partition input_size output_size dt = Except.ok ws
      ∧ ws.qweight.shape
          = [output_size_per_partition / 4,
             input_size_per_partition / 4 * 4]
      ∧ ws.qweight.dtype = DType.int16
      ∧ ws.qzeros.shape = [zeros_width * 8, output_size_per_partition]
      ∧ ws.qzeros.dtype = dt
      ∧ ws.scales.shape = [zeros_width * 8, output_size_per_partition]
      ∧ ws.scales.dtype = dt := by
  have hc : (⟨4, g, z, "gemv_fast", 8, 4, 4⟩ : AWQConfig) = cfg := by
    simpa [AWQConfig.init] using hcfg
  subst hc
  refine ⟨⟨⟨[output_size_per_partition / 4,
      input_size_per_partition / 4 * 4],
      DType.int16, ⟨1, 0, some 1, some 4, some 4⟩⟩,
      ⟨[zeros_width * 8, output_size_per_partition],
      dt, ⟨0, 1, some 0, none, none⟩⟩,
      ⟨[zeros_width * 8, output_size_per_partition],
      dt, ⟨0, 1, some 0, none, none⟩⟩⟩, ?_, rfl, rfl, rfl, rfl, rfl, rfl⟩
  simp [create_weights, pyMod, hg.ne', hin, hout, hzw]

/-- Witness for C2 at `groupSize = 128`, `inputSizePerPartition = 128`,
`outputSizePerPartition = 8`, where `groupedWidth(128, 128) = 1`. -/
theorem awq_c2_witness :
    ∃ ws, create_weights ⟨4, 128, true, "gemv_fast", 8, 4, 4⟩ 128 8 128 8
        DType.half = Except.ok ws
      ∧ ws.qweight.shape = [8 / 4, 128 / 4 * 4]
      ∧ ws.qweight.dtype = DType.int16
      ∧ ws.qzeros.shape = [1 * 8, 8]
      ∧ ws.qzeros.dtype = DType.half
      ∧ ws.scales.shape = [1 * 8, 8]
      ∧ ws.scales.dtype = DType.half :=
  awq_c2_gemv_fast_layout_shapes 128 true ⟨4, 128, true, "gemv_fast", 8, 4, 4⟩
    rfl (by decide) 128 8 128 8 DType.half 1 (by decide) (by decide) rfl

/-- Counterexample to C5 as stated: under the STANDARD layout with
`groupSize = 128`, `inputSizePerPartition = 128`,
`outputSizePerPartition = 8`, allocation succeeds but `scales` has
physical shape `[1, 8]` while `qzeros` has physical shape `[1, 1]` — the
two buffers do not share an identical physical shape (they differ by the
pack factor along dim 1). -/
theorem awq_c5_counterexample :
    ((create_weights ⟨4, 128, true, "gemm", 8, 4, 4⟩ 128 8 128 8
        DType.half).toOption.map
      (fun ws => ws.scales.shape == ws.qzeros.shape)) = some false := rfl

/-- C5 (amended): under the STANDARD layout, `scales` and `qzeros` share
the same dim-0 extent (`inputSizePerPartition / groupSize` groups), and
the dim-1 extent of `scales` equals that of `qzeros` times
`packFactor32 = 8`: they share an identical logical shape, with `qzeros`
packed along dim 1, rather than an identical physical shape. -/
theorem awq_c5_scales_qzeros_relation (g : Nat) (z : Bool) (v : String)
    (cfg : AWQConfig) (hcfg : AWQConfig.init 4 g z v = Except.ok cfg)
    (hv : v ≠ "gemv_fast") (hg : 0 < g)
    (input_size_per_partition output_size_per_partition
     input_size output_size : Nat) (dt : DType)
    (hin : input_size_per_partition % g = 0)
    (hout : output_size_per_partition % 8 = 0) :
    ∃ ws, create_weights cfg input_size_per_partition
        output_size_per_partition input_size output_size dt = Except.ok ws
      ∧ ws.scales.shape.getD 0 0 = ws.qzeros.shape.getD 0 0
      ∧ ws.scales.shape.getD 1 0 = ws.qzeros.shape.getD 1 0 * 8 := by
  have hc : (⟨4, g, z, v, 8, 4, 4⟩ : AWQConfig) = cfg := by
    simpa [AWQConfig.init] using hcfg
  subst hc
  refine ⟨⟨⟨[input_size_per_partition, output_size_per_partition / 8],
      DType.int32, ⟨0, 1, some 1, some 8, none⟩⟩,
      ⟨[input_size_per_partition / g, output_size_per_partition / 8],
      DType.int32, ⟨0, 1, some 1, some 8, none⟩⟩,
      ⟨[input_size_per_partition / g, output_size_per_partition],
      dt, ⟨0, 1, none, none, none⟩⟩⟩, ?_, rfl, ?_⟩
  · simp [create_weights, pyMod, hg.ne', hin, hout, hv]
  · simp only [List.getD]
    exact (Nat.div_mul_cancel (Nat.dvd_of_mod_eq_zero hout)).symm

/-- Witness for the amended C5 at `groupSize = 128`,
`inputSizePerPartition = 128`, `outputSizePerPartition = 8`. -/
theorem awq_c5_witness :
    ∃ ws, create_weights ⟨4, 128, true, "gemm", 8, 4, 4⟩ 128 8 128 8
        DType.half = Except.ok ws
      ∧ ws.scales.shape.getD 0 0 = ws.qzeros.shape.getD 0 0
      ∧ ws.scales.shape.getD 1 0 = ws.qzeros.shape.getD 1 0 * 8 :=
  awq_c5_scales_qzeros_relation 128 true "gemm" ⟨4, 128, true, "gemm", 8, 4, 4⟩
    rfl (by decide) (by decide) 128 8 128 8 DType.half (by decide) (by decide)

/-- C7: for every shard shape violating either allocation precondition
(`groupSize ∤ inputSizePerPartition` or
`packFactor32 ∤ outputSizePerPartition`), `create_weights` fails with one
of the two fatal sharding `ValueError`s; in the error case no
`PackedWeightSet` is produced (the checks precede every allocation). -/
theorem awq_c7_sharding_errors (g : Nat) (z : Bool) (v : String)
    (cfg : AWQConfig) (hcfg : AWQConfig.init 4 g z v = Except.ok cfg)
    (hg : 0 < g)
    (input_size_per_partition output_size_per_partition
     input_size output_size : Nat) (dt : DType)
    (hbad : input_size_per_partition % g ≠ 0
        ∨ output_size_per_partition % 8 ≠ 0) :
    create_weights cfg input_size_per_partition output_size_per_partition
        input_size output_size dt
      = Except.error (PyError.valueError input_align_msg)
    ∨ create_weights cfg input_size_per_partition output_size_per_partition
        input_size output_size dt
      = Except.error (PyError.valueError output_align_msg) := by
  have hc : (⟨4, g, z, v, 8, 4, 4⟩ : AWQConfig) = cfg := by
    simpa [AWQConfig.init] using hcfg
  subst hc
  by_cases h1 : input_size_per_partition % g = 0
  · right
    rcases hbad with h | h
    · exact absurd h1 h
    · simp [create_weights, pyMod, hg.ne', h1, h]
  · left
    simp [create_weights, pyMod, hg.ne', h1]

/-- Witness for C7 at `groupSize = 128`, `inputSizePerPartition = 5`
(not a multiple of 128). -/
theorem awq_c7_witness :
    create_weights ⟨4, 128, true, "gemm", 8, 4, 4⟩ 5 8 5 8 DType.half
      = Except.error (PyError.valueError input_align_msg)
    ∨ create_weights ⟨4, 128, true, "gemm", 8, 4, 4⟩ 5 8 5 8 DType.half
      = Except.error (PyError.valueError output_align_msg) :=
  awq_c7_sharding_errors 128 true "gemm" ⟨4, 128, true, "gemm", 8, 4, 4⟩
    rfl (by decide) 5 8 5 8 DType.half (Or.inl (by decide))

/-- C3: `apply_weights` computes `totalTokens` as the product of all
leading (non-last) activation dimensions; under the STANDARD variant the
dequantize-then-`matmul` path is taken iff `totalTokens ≥ 256` (otherwise
the fused `awq_gemm` kernel), and under the FAST_GEMV variant the fused
`awq_gemv_fast` kernel is invoked iff `totalTokens < 8` (otherwise the
fused `awq_gemm_fast` kernel). -/
theorem awq_c3_dispatch_policy (cfg : AWQConfig) (xShape : List Nat) :
    total_tokens xShape = (xShape.dropLast).prod
    ∧ (cfg.version ≠ "gemv_fast" →
        ((apply_weights_path cfg xShape = DispatchPath.dequantizeMatmul
            ↔ 256 ≤ total_tokens xShape)
         ∧ (apply_weights_path cfg xShape = DispatchPath.fusedGemm
            ↔ total_tokens xShape < 256)))
    ∧ (cfg.version = "gemv_fast" →
        ((apply_weights_path cfg xShape = DispatchPath.gemvFast
            ↔ total_tokens xShape < 8)
         ∧ (apply_weights_path cfg xShape = DispatchPath.gemmFast
            ↔ 8 ≤ total_tokens xShape))) := by
  refine ⟨rfl, ?_, ?_⟩
  · intro hv
    unfold apply_weights_path
    rw [if_neg hv]
    by_cases h : 256 ≤ total_tokens xShape
    · rw [if_pos h]
      simp [h, Nat.not_lt.mpr h]
    · rw [if_neg h]
      simp [h, Nat.not_le.mp h]
  · intro hv
    unfold apply_weights_path
    rw [if_pos hv]
    by_cases h : 8 ≤ total_tokens xShape
    · rw [if_neg (by simpa using h)]
      simp [h, Nat.not_lt.mpr h]
    · rw [if_pos (by simpa using h)]
      simp [h, Nat.not_le.mp h]

/-- Witness for C3: the small-batch paths are taken at exactly
`totalTokens = 255` (STANDARD) and `totalTokens = 7` (FAST_GEMV). -/
theorem awq_c3_witness :
    apply_weights_path ⟨4, 128, true, "gemm", 8, 4, 4⟩ [255, 16]
      = DispatchPath.fusedGemm
    ∧ apply_weights_path ⟨4, 128, true, "gemv_fast", 8, 4, 4⟩ [7, 16]
      = DispatchPath.gemvFast := by
  constructor
  · exact ((awq_c3_dispatch_policy ⟨4, 128, true, "gemm", 8, 4, 4⟩
      [255, 16]).2.1 (by decide)).2.mpr (by decide)
  · exact ((awq_c3_dispatch_policy ⟨4, 128, true, "gemv_fast", 8, 4, 4⟩
      [7, 16]).2.2 rfl).1.mpr (by decide)

/-- Counterexample to C9 as stated: the claim says the weight-bits field
is read by trying the candidate keys `weight_bits` then `bits`; on a
config that carries `weight_bits` (with all other recognized fields
present and valid) the factory would then have to succeed, but it fails
with a missing-key error — the first candidate key is actually `w_bit`. -/
theorem awq_c9_counterexample :
    AWQConfig.from_config
        [("weight_bits", ConfigValue.int 4),
         ("q_group_size", ConfigValue.int 128),
         ("zero_point", ConfigValue.bool true),
         ("version", ConfigValue.str "gemm")]
      = Except.error (PyError.valueError cannot_find_keys_msg) := rfl

/-- C9 (amended): the descriptor factory reads the weight-bits field by
trying the candidate keys `w_bit` then `bits` (first present key wins),
the group-size field via `q_group_size` then `group_size`, and the
`zero_point` and `version` fields by their single keys, before
constructing the validated descriptor from the retrieved values. -/
theorem awq_c9_from_config_key_order (w w2 g g2 : Nat) (z : Bool)
    (v : String) :
    AWQConfig.from_config
        [("w_bit", ConfigValue.int w), ("bits", ConfigValue.int w2),
         ("q_group_size", ConfigValue.int g),
         ("group_size", ConfigValue.int g2),
         ("zero_point", ConfigValue.bool z),
         ("version", ConfigValue.str v)]
      = AWQConfig.init w g z v
    ∧ AWQConfig.from_config
        [("bits", ConfigValue.int w2), ("group_size", ConfigValue.int g2),
         ("zero_point", ConfigValue.bool z),
         ("version", ConfigValue.str v)]
      = AWQConfig.init w2 g2 z v := ⟨rfl, rfl⟩
